import Mathlib

/-!
Verification of the real-estate listing backend against its specification.

The development shallowly embeds the Python source:
pure request handlers become Lean functions, the MongoDB collections become
lists of records, datetimes become natural-number timestamps, and calls into
the Stripe SDK or the hashing library become explicit parameters (an
environment record, or a structure of primitive functions) since the spec
treats those as external collaborators.  Exceptions are modelled with
`Option`/`Except`: a primitive returning `none` models a raised exception at
that call site, and handlers translate `try`/`except` blocks accordingly.
-/

namespace RealEstate

/-- Model of pymongo `update_one`: rewrite the first element matching the
filter predicate and leave everything else untouched. -/
def update_one {α : Type} (p : α → Bool) (f : α → α) : List α → List α
  | [] => []
  | x :: xs => if p x then f x :: xs else x :: update_one p f xs

/-- Value of a decimal digit string, as `int(...)` computes it. -/
def digitsToNat (ds : List Char) : Nat :=
  ds.foldl (fun n c => 10 * n + (c.toNat - '0'.toNat)) 0

/-! ## Listing query builder (src/api/v1/listings.py)

Listing documents are loosely typed: the price may be a number, a string or
missing, and the area / construction-date fields are free text. -/

/-- A loosely typed BSON value stored in the `Sale Price` field. -/
inductive PriceVal where
  | pnum (n : Int)
  | pstr (s : String)
  | pnull
deriving DecidableEq, Repr

/-- One listing document, restricted to the fields the pipeline reads. -/
structure Listing where
  prefecture : Option String := none
  layout : Option String := none
  salePrice : Option PriceVal := none
  buildingArea : Option String := none
  landArea : Option String := none
  constructionDate : Option String := none
  createdAt : Nat := 0
deriving DecidableEq, Repr

/-- The filter/sort/page parameters of `get_all_listings_filtered`. -/
structure Filters where
  prefecture : Option String := none
  layout : Option String := none
  sale_price_min : Option Int := none
  sale_price_max : Option Int := none
  building_area_min : Option Int := none
  building_area_max : Option Int := none
  land_area_min : Option Int := none
  land_area_max : Option Int := none
  construction_year_min : Option Int := none
  construction_year_max : Option Int := none
  sort_by : Option String := some "createdAt"
  sort_order : Option String := some "desc"
  page : Nat := 1
  limit : Nat := 20
deriving DecidableEq, Repr

/-- Mongo `$regexFind` with pattern `([0-9]+(:?\.[0-9]+)?)` followed by
`$toDouble`: the first maximal digit run, optionally extended by a dot and a
nonempty digit run, read as a (here: rational) number. -/
def numTokenAux : List Char → Option ℚ
  | [] => none
  | c :: cs =>
    if c.isDigit then
      let intPart := c :: cs.takeWhile Char.isDigit
      let rest := cs.dropWhile Char.isDigit
      match rest with
      | '.' :: r2 =>
        let fracPart := r2.takeWhile Char.isDigit
        if fracPart.isEmpty then some ((digitsToNat intPart : ℚ))
        else some ((digitsToNat intPart : ℚ) + (digitsToNat fracPart : ℚ) / (10 : ℚ) ^ fracPart.length)
      | _ => some ((digitsToNat intPart : ℚ))
    else numTokenAux cs

/-- First numeric token of a free-text area string. -/
def firstNumericToken (s : String) : Option ℚ := numTokenAux s.data

/-- Mongo `$regexFind` with pattern `(\d\x7b4\x7d)` followed by `$toInt`:
the first four consecutive ASCII digits of the text. -/
def fourDigitAux : List Char → Option Nat
  | c1 :: c2 :: c3 :: c4 :: rest =>
    if c1.isDigit && c2.isDigit && c3.isDigit && c4.isDigit then
      some (digitsToNat [c1, c2, c3, c4])
    else fourDigitAux (c2 :: c3 :: c4 :: rest)
  | _ => none

/-- First four-consecutive-digit group of a string. -/
def fourDigitFind (s : String) : Option Nat := fourDigitAux s.data

/-- Regex `\s`: ASCII whitespace. -/
def isSpaceChar (c : Char) : Bool :=
  c == ' ' || c == '\t' || c == '\n' || c == '\r' || c == '\x0b' || c == '\x0c'

/-- Whether a character list begins with the literal `year` (the optional
trailing `s` of `years?` does not affect whether the regex matches). -/
def isYearWord : List Char → Bool
  | 'y' :: 'e' :: 'a' :: 'r' :: _ => true
  | _ => false

/-- Mongo `$regexFind` with pattern `(\d+)\s*years?`, returning capture 0 as a
number: the first digit run that is followed, after optional whitespace, by
the word `year`.  (Retrying from the next character rather than from the end
of the digit run is equivalent: a start inside a failing run sees the same
tail and fails too, so the leftmost successful start is always a run
start.) -/
def yearsAux : List Char → Option Nat
  | [] => none
  | c :: cs =>
    if c.isDigit then
      let run := c :: cs.takeWhile Char.isDigit
      let rest := cs.dropWhile Char.isDigit
      if isYearWord (rest.dropWhile isSpaceChar) then some (digitsToNat run)
      else yearsAux cs
    else yearsAux cs

/-- The `N` of the first `N years` phrase of a string, if any. -/
def yearsFind (s : String) : Option Nat := yearsAux s.data

/-- The `construction_year` `$addFields` expression: empty or absent text
gives null; otherwise a four-digit group is used directly as the year, an
`N years` phrase gives `currentYear - N`, and anything else gives null. -/
def constructionYearOf (currentYear : Nat) (txt : Option String) : Option Int :=
  let dateStr := txt.getD ""
  if dateStr == "" then none
  else
    match fourDigitFind dateStr with
    | some y => some (y : Int)
    | none =>
      match yearsFind dateStr with
      | some n => some ((currentYear : Int) - (n : Int))
      | none => none

/-- The `building_area_numeric` computed field. -/
def buildingAreaNumeric (l : Listing) : Option ℚ :=
  firstNumericToken (l.buildingArea.getD "")

/-- The `land_area_numeric` computed field. -/
def landAreaNumeric (l : Listing) : Option ℚ :=
  firstNumericToken (l.landArea.getD "")

/-- The initial `$match` stage.  The handler unconditionally requires
`Sale Price` to exist with BSON type number (the dead
`if "Sale Price" not in query` guard in the source never fires because the
key was just inserted), and adds `$gte`/`$lte` bounds when given.  The
`if prefecture:` / `if layout:` guards follow Python truthiness, so an empty
string disables those filters. -/
def matchesQuery (f : Filters) (l : Listing) : Bool :=
  (match f.prefecture with
   | some p => if p == "" then true else l.prefecture == some p
   | none => true) &&
  (match f.layout with
   | some p => if p == "" then true else l.layout == some p
   | none => true) &&
  (match l.salePrice with
   | some (PriceVal.pnum n) =>
     (match f.sale_price_min with | some m => decide (m ≤ n) | none => true) &&
     (match f.sale_price_max with | some m => decide (n ≤ m) | none => true)
   | _ => false)

/-- An optional `$gte` bound against an optional numeric value; a null
computed field never satisfies a numeric comparison (BSON type bracketing). -/
def rangeMinOk (bound : Option Int) (v : Option ℚ) : Bool :=
  match bound with
  | none => true
  | some m => match v with
    | some x => decide ((m : ℚ) ≤ x)
    | none => false

/-- An optional `$lte` bound against an optional numeric value. -/
def rangeMaxOk (bound : Option Int) (v : Option ℚ) : Bool :=
  match bound with
  | none => true
  | some m => match v with
    | some x => decide (x ≤ (m : ℚ))
    | none => false

/-- The optional building/land-area `$match` stages. -/
def areaOk (f : Filters) (l : Listing) : Bool :=
  rangeMinOk f.building_area_min (buildingAreaNumeric l) &&
  rangeMaxOk f.building_area_max (buildingAreaNumeric l) &&
  rangeMinOk f.land_area_min (landAreaNumeric l) &&
  rangeMaxOk f.land_area_max (landAreaNumeric l)

/-- An optional construction-year `$gte` stage (with its explicit
`$ne: None, $type: number` guards, which null values fail). -/
def yearMinOk (bound : Option Int) (y : Option Int) : Bool :=
  match bound with
  | none => true
  | some m => match y with
    | some v => decide (m ≤ v)
    | none => false

/-- An optional construction-year `$lte` stage. -/
def yearMaxOk (bound : Option Int) (y : Option Int) : Bool :=
  match bound with
  | none => true
  | some m => match y with
    | some v => decide (v ≤ m)
    | none => false

/-- Both optional construction-year stages. -/
def yearOk (f : Filters) (currentYear : Nat) (l : Listing) : Bool :=
  yearMinOk f.construction_year_min (constructionYearOf currentYear l.constructionDate) &&
  yearMaxOk f.construction_year_max (constructionYearOf currentYear l.constructionDate)

/-- The per-collection pipeline (shared by the base collection and every
`$unionWith` branch): query `$match`, computed fields, then the optional
area and construction-year `$match` stages. -/
def collPipeline (f : Filters) (currentYear : Nat) (docs : List Listing) : List Listing :=
  ((docs.filter (matchesQuery f)).filter (areaOk f)).filter (yearOk f currentYear)

/-- Sale-price sort key; every document reaching the `$sort` stage has a
numeric price (the query stage guarantees it), so the default is never hit. -/
def salePriceKey (l : Listing) : Int :=
  match l.salePrice with
  | some (PriceVal.pnum n) => n
  | _ => 0

/-- The `$sort` comparison: key `Sale Price` when `sort_by == "sale_price"`,
otherwise `createdAt`; ascending exactly when `sort_order == "asc"`. -/
def sortLe (f : Filters) (a b : Listing) : Bool :=
  let asc := f.sort_order == some "asc"
  if f.sort_by == some "sale_price" then
    if asc then decide (salePriceKey a ≤ salePriceKey b)
    else decide (salePriceKey b ≤ salePriceKey a)
  else
    if asc then decide (a.createdAt ≤ b.createdAt)
    else decide (b.createdAt ≤ a.createdAt)

/-- Insert into a sorted list, modelling one step of the `$sort` stage. -/
def orderedInsert {α : Type} (le : α → α → Bool) (x : α) : List α → List α
  | [] => [x]
  | y :: ys => if le x y then x :: y :: ys else y :: orderedInsert le x ys

/-- Deterministic model of the `$sort` stage. -/
def insertionSort {α : Type} (le : α → α → Bool) : List α → List α
  | [] => []
  | x :: xs => orderedInsert le x (insertionSort le xs)

/-- The union of the filtered pipelines of every collection, in collection
order, before the `$sort` stage. -/
def filteredUnion (f : Filters) (currentYear : Nat) (colls : List (List Listing)) : List Listing :=
  (colls.map (collPipeline f currentYear)).flatten

/-- The sorted union the `$sort` stage produces. -/
def sortedUnion (f : Filters) (currentYear : Nat) (colls : List (List Listing)) : List Listing :=
  insertionSort (sortLe f) (filteredUnion f currentYear colls)

/-- The handler's response model. -/
structure ListingsResult where
  results : List Listing
  total_count : Nat
  total_pages : Nat
  current_page : Nat
deriving DecidableEq, Repr

/-- `get_all_listings_filtered`: empty database short-circuits; otherwise the
count pass runs the identical pipeline (`pipeline.copy()` plus `$count`)
before `$skip (page-1)*limit` and `$limit limit` are appended, and
`total_pages = math.ceil(total_count / limit)`. -/
def get_all_listings_filtered (f : Filters) (currentYear : Nat)
    (colls : List (List Listing)) : ListingsResult :=
  match colls with
  | [] => ⟨[], 0, 0, f.page⟩
  | _ :: _ =>
    let sorted := sortedUnion f currentYear colls
    let total_count := sorted.length
    let paged := (sorted.drop ((f.page - 1) * f.limit)).take f.limit
    ⟨paged, total_count, (total_count + f.limit - 1) / f.limit, f.page⟩

/-- Whether a listing has a numeric `Sale Price`. -/
def priceNumeric (l : Listing) : Bool :=
  match l.salePrice with
  | some (PriceVal.pnum _) => true
  | _ => false

/-! ## Credential store (src/core/auth.py)

The hashing primitives (bcrypt through passlib, and hashlib SHA-256) are
external collaborators; they are passed in as a structure of functions, with
`none` modelling a raised exception.  `hash` and `verify` below translate
`get_password_hash` and `verify_password`. -/

/-- Translation of `str.startswith`. -/
def prefixAux : List Char → List Char → Bool
  | [], _ => true
  | _ :: _, [] => false
  | a :: as, b :: bs => a == b && prefixAux as bs

/-- Python `hashed_password.startswith(pre)`. -/
def pyStartsWith (pre s : String) : Bool := prefixAux pre.data s.data

/-- Worker for `str.split(sep)` (single-character separator, no maxsplit):
cut at every separator occurrence, keeping empty pieces. -/
def splitAux (sep : Char) : List Char → List Char → List (List Char)
  | [], acc => [acc.reverse]
  | c :: cs, acc =>
    if c == sep then acc.reverse :: splitAux sep cs []
    else splitAux sep cs (c :: acc)

/-- Python `s.split(sep)` for a one-character separator. -/
def pySplit (sep : Char) (s : String) : List String :=
  (splitAux sep s.data []).map String.mk

/-- Python `len(s.encode("utf-8"))`. -/
def utf8Len (s : String) : Nat := s.utf8ByteSize

/-- The external hashing primitives: hex SHA-256 digest, bcrypt hashing and
bcrypt verification (through the passlib context).  `none` models the
primitive raising. -/
structure HashPrimitives where
  sha256hex : String → String
  bcryptHash : String → Option String
  bcryptVerify : String → String → Option Bool

/-- `get_password_hash`: passwords over 72 UTF-8 bytes are pre-digested with
SHA-256 before bcrypt; if bcrypt raises, a salted-digest fallback string
`sha256:<salt>:<hexdigest>` is produced instead (`salt` stands for the
generated `secrets.token_hex(16)`). -/
def get_password_hash (P : HashPrimitives) (salt : String) (password : String) : String :=
  if utf8Len password > 72 then
    match P.bcryptHash (P.sha256hex password) with
    | some h => h
    | none => "sha256:" ++ salt ++ ":" ++ P.sha256hex (password ++ salt)
  else
    match P.bcryptHash password with
    | some h => h
    | none => "sha256:" ++ salt ++ ":" ++ P.sha256hex (password ++ salt)

/-- `verify_password`: recognize the `sha256:` fallback format first (with a
strict three-part shape check), otherwise verify through bcrypt, pre-digesting
plaintexts over 72 bytes; every raised exception yields `false`. -/
def verify_password (P : HashPrimitives) (plain hashed : String) : Bool :=
  if pyStartsWith "sha256:" hashed then
    match pySplit ':' hashed with
    | [_, salt, stored] => P.sha256hex (plain ++ salt) == stored
    | _ => false
  else if utf8Len plain > 72 then
    match P.bcryptVerify (P.sha256hex plain) hashed with
    | some b => b
    | none => false
  else
    match P.bcryptVerify plain hashed with
    | some b => b
    | none => false

/-- Whether a string is free of the `:` separator (true of the hex salts and
hex digests the real primitives produce). -/
def colonFree (s : String) : Bool := s.data.all (fun c => !(c == ':'))

/-- The aliasing the over-length pre-digest path introduces: one password is
over the 72-byte ceiling and the other is its hex SHA-256 digest. -/
def crossDigestAlias (P : HashPrimitives) (p q : String) : Prop :=
  (72 < utf8Len q ∧ p = P.sha256hex q) ∨
  (utf8Len q ≤ 72 ∧ 72 < utf8Len p ∧ P.sha256hex p = q)

/-! ## Subscription data model and access check (src/core/auth.py) -/

/-- An application user (the `User` pydantic model; `role` carries the
`UserRole` string-enum value). -/
structure User where
  id : String
  email : String := ""
  name : String := ""
  role : String := "user"
  is_active : Bool := true
deriving DecidableEq, Repr

/-- A document of the `subscriptions` collection.  Records synthesized by the
webhook carry `user_email` instead of `user_id`, hence both are optional. -/
structure SubRecord where
  oid : Nat
  user_id : Option String := none
  user_email : Option String := none
  plan : String := "premium"
  status : String := "active"
  payment_provider : String := "stripe"
  stripe_subscription_id : Option String := none
  starts_at : Nat := 0
  ends_at : Nat := 0
  created_at : Nat := 0
  updated_at : Nat := 0
deriving DecidableEq, Repr

/-- The `$or` filter of `get_current_subscribed_user`: the subscription
belongs to the user and is `active` or `cancelled` with `ends_at` strictly
in the future. -/
def accessMatch (now : Nat) (uid : String) (s : SubRecord) : Bool :=
  s.user_id == some uid &&
    ((s.status == "active" && decide (now < s.ends_at)) ||
     (s.status == "cancelled" && decide (now < s.ends_at)))

/-- The forbidden error of the access check. -/
inductive AuthError where
  | forbidden
deriving DecidableEq, Repr

/-- `get_current_subscribed_user`: admins bypass the check; otherwise
`find_one` (no sort) looks for any subscription matching `accessMatch`, and
its absence raises 403. -/
def get_current_subscribed_user (now : Nat) (u : User) (subs : List SubRecord) :
    Except AuthError User :=
  if u.role == "admin" then Except.ok u
  else
    match subs.find? (accessMatch now u.id) with
    | some _ => Except.ok u
    | none => Except.error AuthError.forbidden

/-- `find_one(..., sort=[("created_at", -1)])`: the matching record with the
greatest `created_at` (the earliest such record on ties). -/
def mostRecentMatching (p : SubRecord → Bool) (subs : List SubRecord) : Option SubRecord :=
  (subs.filter p).foldl
    (fun acc s =>
      match acc with
      | none => some s
      | some m => if m.created_at < s.created_at then some s else some m)
    none

/-- Modelled from the spec: the access-check contract as the spec words it,
gating on the user's most recent subscription by `created_at` rather than on
the existence of any matching one. -/
def specAccessAllowed (now : Nat) (u : User) (subs : List SubRecord) : Bool :=
  u.role == "admin" ||
    (match mostRecentMatching (fun s => s.user_id == some u.id) subs with
     | some m => (m.status == "active" || m.status == "cancelled") && decide (now < m.ends_at)
     | none => false)

/-! ## Subscription lifecycle (src/api/v1/payments.py, src/core/payments.py)

The Stripe SDK is an external collaborator; its behaviour at each call site
is supplied by a `StripeEnv`.  The local database plus the provider-visible
side effects form a `PayState`. -/

/-- 30 days in seconds (`timedelta(days=30)` on second-resolution
timestamps). -/
def thirtyDays : Nat := 30 * 24 * 60 * 60

/-- Local subscriptions collection plus the observable provider-side state:
how many provider subscriptions were created (each takes a payment) and the
per-provider-subscription `cancel_at_period_end` flag writes (latest first). -/
structure PayState where
  subs : List SubRecord
  nextOid : Nat := 0
  stripeSubsCreated : Nat := 0
  providerFlags : List (String × Bool) := []
deriving DecidableEq, Repr

/-- The behaviour of the Stripe SDK during one request: whether
`Subscription.modify` succeeds, whether the customer/payment-method/
`Subscription.create` sequence succeeds (and the id it returns), and what
`Subscription.retrieve` reports (| `none` models a `StripeError`). -/
structure StripeEnv where
  modifyOk : Bool := true
  createOk : Bool := true
  newStripeSubId : String := "sub_new"
  retrieveStatus : Option String := some "active"
deriving DecidableEq, Repr

/-- Errors surfaced by the payment handlers (as HTTP error responses). -/
inductive PayError where
  | stripeError
  | alreadyActive
  | unsupportedProvider
  | notFound
deriving DecidableEq, Repr

/-- The `PaymentResponse` model. -/
structure PaymentResponse where
  success : Bool
  subscription_id : Option Nat := none
  message : String := ""
deriving DecidableEq, Repr

/-- The request body of renew (`SubscriptionCreate`). -/
structure SubscriptionCreate where
  payment_provider : String := "stripe"
  payment_token : String := ""
deriving DecidableEq, Repr

/-- `reactivate_cancelled_subscription`: clear the provider
`cancel_at_period_end` flag when a provider subscription id is stored (a
`StripeError` there aborts with an HTTP error before any local write), then
set the record back to `active` in place. -/
def reactivate_cancelled_subscription (now : Nat) (env : StripeEnv) (doc : SubRecord)
    (st : PayState) : Except PayError PaymentResponse × PayState :=
  let setActive : SubRecord → SubRecord := fun r => { r with status := "active", updated_at := now }
  let localUpdate : PayState → PayState := fun s =>
    { s with subs := update_one (fun r => r.oid == doc.oid) setActive s.subs }
  let okResp : Except PayError PaymentResponse := Except.ok ⟨true, some doc.oid,
    "Subscription reactivated successfully! Your access will continue beyond the current period."⟩
  match doc.stripe_subscription_id with
  | some sid =>
    if env.modifyOk then
      (okResp, localUpdate { st with providerFlags := (sid, false) :: st.providerFlags })
    else (Except.error PayError.stripeError, st)
  | none => (okResp, localUpdate st)

/-- The fresh 30-day active record inserted by `process_stripe_renewal`. -/
def renewDoc (now : Nat) (env : StripeEnv) (user : User) (st : PayState) : SubRecord :=
  { oid := st.nextOid, user_id := some user.id, plan := "premium",
    status := "active", payment_provider := "stripe",
    stripe_subscription_id := some env.newStripeSubId,
    starts_at := now, ends_at := now + thirtyDays,
    created_at := now, updated_at := now }

/-- `process_stripe_renewal`: run the customer / payment-method / product /
`Subscription.create` sequence (which charges the customer) and insert a
fresh 30-day active record. -/
def process_stripe_renewal (now : Nat) (env : StripeEnv) (user : User)
    (st : PayState) : Except PayError PaymentResponse × PayState :=
  if env.createOk then
    let st2 : PayState :=
      { st with
        subs := st.subs ++ [renewDoc now env user st]
        nextOid := st.nextOid + 1
        stripeSubsCreated := st.stripeSubsCreated + 1 }
    (Except.ok ⟨true, some st.nextOid, "Subscription renewed successfully!"⟩, st2)
  else (Except.error PayError.stripeError, st)

/-- `renew_subscription`: look up the most recent subscription; while it is
unexpired, `cancelled` reactivates it in place and `active` is rejected;
every other case (other status, expired, or no record) creates a new
subscription through the Stripe renewal flow. -/
def renew_subscription (now : Nat) (env : StripeEnv) (user : User)
    (sd : SubscriptionCreate) (st : PayState) : Except PayError PaymentResponse × PayState :=
  let createNew : Except PayError PaymentResponse × PayState :=
    if sd.payment_provider == "stripe" then process_stripe_renewal now env user st
    else (Except.error PayError.unsupportedProvider, st)
  match mostRecentMatching (fun s => s.user_id == some user.id) st.subs with
  | some ex =>
    if now < ex.ends_at then
      if ex.status == "cancelled" then reactivate_cancelled_subscription now env ex st
      else if ex.status == "active" then (Except.error PayError.alreadyActive, st)
      else createNew
    else createNew
  | none => createNew

/-- The user-facing messages of `cancel_subscription`. -/
inductive CancelMessage where
  | plainCancelled
  | willCancelAtPeriodEnd
  | alreadyCancelledAtProvider
  | otherProviderStatus
  | providerErrorLocalCancel
deriving DecidableEq, Repr

/-- The provider-facing block of `cancel_subscription`: retrieve the
provider subscription, set `cancel_at_period_end` when it is still active,
and shape the message; every `StripeError` is caught (logged), leaving the
state untouched. -/
def cancelProviderStep (env : StripeEnv) (doc : SubRecord) (st : PayState) :
    PayState × CancelMessage :=
  match doc.stripe_subscription_id with
  | none => (st, CancelMessage.plainCancelled)
  | some sid =>
    match env.retrieveStatus with
    | none => (st, CancelMessage.providerErrorLocalCancel)
    | some s =>
      if s == "active" then
        if env.modifyOk then
          ({ st with providerFlags := (sid, true) :: st.providerFlags },
           CancelMessage.willCancelAtPeriodEnd)
        else (st, CancelMessage.providerErrorLocalCancel)
      else if s == "canceled" || s == "cancelled" then
        (st, CancelMessage.alreadyCancelledAtProvider)
      else (st, CancelMessage.otherProviderStatus)

/-- `cancel_subscription`: requires some `active` subscription of the user;
the provider-side `retrieve`/`modify` calls only shape the message, and the
local record is then marked `cancelled` with a fresh `updated_at`
unconditionally. -/
def cancel_subscription (now : Nat) (env : StripeEnv) (user : User)
    (st : PayState) : Except PayError CancelMessage × PayState :=
  match st.subs.find? (fun s => s.user_id == some user.id && s.status == "active") with
  | none => (Except.error PayError.notFound, st)
  | some doc =>
    let afterStripe := cancelProviderStep env doc st
    let setCancelled : SubRecord → SubRecord := fun r => { r with status := "cancelled", updated_at := now }
    let st2 : PayState :=
      { afterStripe.1 with subs := update_one (fun r => r.oid == doc.oid) setCancelled afterStripe.1.subs }
    (Except.ok afterStripe.2, st2)

/-! ## Webhook reconciliation (src/api/v1/payments.py `stripe_webhook`,
src/core/payments.py handlers)

The event payload is a dictionary; optional fields are `Option`s with `none`
standing for absent-or-null.  `datetime.fromtimestamp` applied to a missing
value raises (a `TypeError` on `None` from `.get`, a `KeyError` on direct
indexing of an absent key); `Except.error` models that exception escaping,
since no `try` surrounds the dispatch in the endpoint. -/

/-- One entry of `invoice["lines"]["data"]`: whether the dictionary has a
`subscription` key at all, and the (possibly null) value under it. -/
structure LineItem where
  hasSubscriptionKey : Bool := false
  subscription : Option String := none
deriving DecidableEq, Repr

/-- The `data.object` of a webhook event, merged over the fields the four
handlers read (invoice fields and subscription-object fields). -/
structure EventObject where
  id : Option String := none
  subscription : Option String := none
  lines : List LineItem := []
  customer : Option String := none
  cancel_at : Option Nat := none
  canceled_at : Option Nat := none
deriving DecidableEq, Repr

/-- A document of the `users` collection as the webhook reads it. -/
structure UserDoc where
  oid : Nat
  email : String := ""
  stripe_customer_id : Option String := none
deriving DecidableEq, Repr

/-- Stripe lookups made by the payment-succeeded fallbacks; every outer
`none` models a raised exception, which the handler catches. -/
structure WebhookStripeEnv where
  listSubs : Option (List (String × String)) := none
  retrieveInvoiceSub : Option (Option String) := none
  retrieveSubCustomer : Option (Option String) := none
  retrieveCustomerEmail : Option (Option String) := none
deriving DecidableEq, Repr

/-- `datetime.fromtimestamp` on an optional payload value: raises when the
value is absent or null. -/
def fromtimestamp : Option Nat → Except String Nat
  | none => Except.error "fromtimestamp raised on a missing timestamp"
  | some t => Except.ok t

/-- The multi-step subscription-id resolution of
`handle_subscription_payment_succeeded`: invoice field, then line items
(first item carrying a `subscription` key), then the customer's
subscriptions (first active one, else the first), then re-fetching the
invoice; `none` when every step fails. -/
def resolveSubscriptionId (env : WebhookStripeEnv) (invoice : EventObject) : Option String :=
  let sid1 : Option String :=
    match invoice.subscription with
    | some s => some s
    | none =>
      match invoice.lines.find? (fun it => it.hasSubscriptionKey) with
      | some item => item.subscription
      | none => none
  let sid2 : Option String :=
    match sid1 with
    | some s => some s
    | none =>
      match invoice.customer with
      | none => none
      | some _ =>
        match env.listSubs with
        | none => none
        | some data =>
          if data.isEmpty then none
          else
            match data.find? (fun s => s.2 == "active") with
            | some s => some s.1
            | none => data.head?.map (fun s => s.1)
  match sid2 with
  | some s => some s
  | none =>
    match invoice.id with
    | none => none
    | some _ =>
      match env.retrieveInvoiceSub with
      | none => none
      | some v => v

/-- `handle_subscription_payment_succeeded`: resolve the provider
subscription id (give up silently when impossible); extend a matching local
record by 30 days and mark it active, or synthesize a new record keyed by the
user email looked up through the provider customer.  Every provider error is
caught, so the handler never raises. -/
def handle_subscription_payment_succeeded (now : Nat) (env : WebhookStripeEnv)
    (invoice : EventObject) (users : List UserDoc) (subs : List SubRecord)
    (nextOid : Nat) : List SubRecord × Nat :=
  match resolveSubscriptionId env invoice with
  | none => (subs, nextOid)
  | some sid =>
    match subs.find? (fun s => s.stripe_subscription_id == some sid) with
    | some doc =>
      let extend : SubRecord → SubRecord := fun r =>
        { r with status := "active", ends_at := now + thirtyDays, updated_at := now }
      (update_one (fun r => r.oid == doc.oid) extend subs, nextOid)
    | none =>
      let userEmail : Option String :=
        match env.retrieveSubCustomer with
        | none => none
        | some none => none
        | some (some cid) =>
          match users.find? (fun u => u.stripe_customer_id == some cid) with
          | some u => some u.email
          | none =>
            match env.retrieveCustomerEmail with
            | none => none
            | some e => e
      let doc : SubRecord :=
        { oid := nextOid, user_email := userEmail, plan := "premium",
          status := "active", payment_provider := "stripe",
          stripe_subscription_id := some sid,
          starts_at := now, ends_at := now + thirtyDays,
          created_at := now, updated_at := now }
      (subs ++ [doc], nextOid + 1)

/-- `handle_subscription_payment_failed`: a missing subscription id is
ignored; otherwise the matching local record is set inactive with
`ends_at = now`. -/
def handle_subscription_payment_failed (now : Nat) (invoice : EventObject)
    (subs : List SubRecord) : List SubRecord :=
  match invoice.subscription with
  | none => subs
  | some sid =>
    match subs.find? (fun s => s.stripe_subscription_id == some sid) with
    | some doc =>
      let toInactive : SubRecord → SubRecord := fun r =>
        { r with status := "inactive", ends_at := now, updated_at := now }
      update_one (fun r => r.oid == doc.oid) toInactive subs
    | none => subs

/-- `handle_subscription_cancelled`: a missing event id is ignored; then the
handler indexes `subscription["canceled_at"]` and feeds it to
`datetime.fromtimestamp`, so an absent or null timestamp raises before the
local update, which otherwise sets `cancelled` with `ends_at` at that
timestamp. -/
def handle_subscription_cancelled (now : Nat) (obj : EventObject)
    (subs : List SubRecord) : Except String (List SubRecord) :=
  match obj.id with
  | none => Except.ok subs
  | some sid => do
    let periodEnd ← fromtimestamp obj.canceled_at
    let toCancelled : SubRecord → SubRecord := fun r =>
      { r with status := "cancelled", ends_at := periodEnd, updated_at := now }
    Except.ok (update_one (fun r => r.stripe_subscription_id == some sid) toCancelled subs)

/-- `handle_subscription_updated`: a missing event id is ignored; then
`datetime.fromtimestamp(subscription.get("cancel_at"))` raises whenever the
payload has no cancel-at timestamp (the `if period_end:` guard on the next
source line is dead: it is only reached once `fromtimestamp` succeeded, and a
datetime object is always truthy); with a timestamp present the matching
record is set `cancelled` ending then. -/
def handle_subscription_updated (now : Nat) (obj : EventObject)
    (subs : List SubRecord) : Except String (List SubRecord) :=
  match obj.id with
  | none => Except.ok subs
  | some sid => do
    let periodEnd ← fromtimestamp obj.cancel_at
    let toCancelled : SubRecord → SubRecord := fun r =>
      { r with status := "cancelled", ends_at := periodEnd, updated_at := now }
    Except.ok (update_one (fun r => r.stripe_subscription_id == some sid) toCancelled subs)

/-- `stripe_webhook` after payload parsing: signature failures answer 400;
otherwise the event is dispatched on its type tag and the endpoint answers
`status: success` — unless the chosen handler raises, in which case the
exception escapes the endpoint (there is no surrounding `try`) and no
success response is produced. -/
def stripe_webhook (now : Nat) (env : WebhookStripeEnv) (sigValid : Bool)
    (etype : String) (obj : EventObject) (users : List UserDoc)
    (subs : List SubRecord) (nextOid : Nat) :
    Except String (String × List SubRecord × Nat) :=
  if !sigValid then Except.error "Invalid signature"
  else if etype == "payment_intent.created" then
    let r := handle_subscription_payment_succeeded now env obj users subs nextOid
    Except.ok ("success", r.1, r.2)
  else if etype == "invoice.payment_failed" then
    Except.ok ("success", handle_subscription_payment_failed now obj subs, nextOid)
  else if etype == "customer.subscription.deleted" then do
    let subs2 ← handle_subscription_cancelled now obj subs
    Except.ok ("success", subs2, nextOid)
  else if etype == "customer.subscription.updated" then do
    let subs2 ← handle_subscription_updated now obj subs
    Except.ok ("success", subs2, nextOid)
  else Except.ok ("success", subs, nextOid)

/-! ## Concrete fixtures used by counterexamples and witnesses -/

/-- A plain (non-admin) user. -/
def u1 : User := { id := "u1" }

/-- An old subscription of `u1`, still unexpired and active. -/
def subActiveOld : SubRecord :=
  { oid := 1, user_id := some "u1", status := "active", ends_at := 100, created_at := 1 }

/-- A newer subscription of `u1`, inactive and expired (as the payment-failed
reconciliation leaves records). -/
def subInactiveNew : SubRecord :=
  { oid := 2, user_id := some "u1", status := "inactive", ends_at := 5, created_at := 2 }

/-- Concrete stand-in for the hex digest primitive: truncation to 64
characters (a digest-length, colon-free output; any realization works for
the aliasing counterexample). -/
def toySha (s : String) : String := String.mk (s.data.take 64)

/-- Ideal bcrypt hashing stand-in: a tagged copy of the input. -/
def toyBcryptHash (x : String) : Option String := some ("$2b$" ++ x)

/-- Ideal bcrypt verification stand-in, matching `toyBcryptHash`. -/
def toyBcryptVerify (x h : String) : Option Bool := some (h == "$2b$" ++ x)

/-- Primitives with the truncation digest. -/
def toyPrims : HashPrimitives := ⟨toySha, toyBcryptHash, toyBcryptVerify⟩

/-- An injective digest stand-in. -/
def injSha (s : String) : String := "d" ++ s

/-- Primitives with the injective digest. -/
def injPrims : HashPrimitives := ⟨injSha, toyBcryptHash, toyBcryptVerify⟩

/-- Primitives whose bcrypt calls always raise. -/
def failPrims : HashPrimitives := ⟨injSha, fun _ => none, fun _ _ => none⟩

/-- A password of 80 bytes, above the 72-byte bcrypt ceiling. -/
def longPwd : String := String.mk (List.replicate 80 'a')

/-- The digest of `longPwd` under `toySha`, itself a valid short password. -/
def aliasPwd : String := toySha longPwd

/-- A cancelled, unexpired subscription of `u1`. -/
def w2Sub : SubRecord :=
  { oid := 7, user_id := some "u1", status := "cancelled",
    stripe_subscription_id := some "sub_7", ends_at := 200, created_at := 50 }

/-- Renew-witness state: one cancelled, unexpired subscription of `u1`. -/
def w2State : PayState := { subs := [w2Sub], nextOid := 8 }

/-- An active subscription of `u1`. -/
def w7Sub : SubRecord :=
  { oid := 3, user_id := some "u1", status := "active",
    stripe_subscription_id := some "sub_3", ends_at := 500, created_at := 10 }

/-- Cancel-witness state: one active subscription of `u1`. -/
def w7State : PayState := { subs := [w7Sub], nextOid := 4 }

/-- A listing with a numeric price and a parseable construction date. -/
def wListingGood : Listing :=
  { salePrice := some (PriceVal.pnum 120), constructionDate := some "2015", createdAt := 3 }

/-- A listing with a text price and an unparseable construction date. -/
def wListingBad : Listing :=
  { salePrice := some (PriceVal.pstr "ask"), constructionDate := some "old", createdAt := 9 }

/-- Listings-witness database: one collection holding one priced listing
with a parseable construction date and one unusable listing. -/
def wListings : List (List Listing) := [[wListingGood, wListingBad]]

/-- Listings-witness filters: a one-sided price range and a year range. -/
def wFilters : Filters :=
  { sale_price_min := some 10, construction_year_min := some 2000 }

/-! ## General lemmas about the embedded primitives -/

theorem length_update_one {α : Type} (p : α → Bool) (f : α → α) (l : List α) :
    (update_one p f l).length = l.length := by
  induction l with
  | nil => rfl
  | cons x xs ih =>
    unfold update_one
    by_cases hx : p x = true
    · simp [hx]
    · simp [hx, ih]

theorem update_one_mem_of_find? {α : Type} (p : α → Bool) (f : α → α) (l : List α) (x : α)
    (h : l.find? p = some x) : f x ∈ update_one p f l := by
  induction l with
  | nil => simp at h
  | cons a as ih =>
    unfold update_one
    by_cases ha : p a = true
    · rw [List.find?_cons_of_pos _ ha] at h
      cases h
      simp [ha]
    · rw [List.find?_cons_of_neg _ (by simp [ha])] at h
      simp [ha]
      exact Or.inr (ih h)

theorem length_orderedInsert {α : Type} (le : α → α → Bool) (x : α) (l : List α) :
    (orderedInsert le x l).length = l.length + 1 := by
  induction l with
  | nil => rfl
  | cons y ys ih =>
    unfold orderedInsert
    by_cases hy : le x y = true
    · simp [hy]
    · simp [hy, ih]

theorem length_insertionSort {α : Type} (le : α → α → Bool) (l : List α) :
    (insertionSort le l).length = l.length := by
  induction l with
  | nil => rfl
  | cons x xs ih => simp [insertionSort, length_orderedInsert, ih]

theorem mem_of_mem_orderedInsert {α : Type} {le : α → α → Bool} {x y : α} {l : List α}
    (h : y ∈ orderedInsert le x l) : y = x ∨ y ∈ l := by
  induction l with
  | nil => simpa [orderedInsert] using h
  | cons z zs ih =>
    unfold orderedInsert at h
    by_cases hz : le x z = true
    · simp [hz] at h
      rcases h with h | h | h
      · exact Or.inl h
      · exact Or.inr (by simp [h])
      · exact Or.inr (by simp [h])
    · simp [hz] at h
      rcases h with h | h
      · exact Or.inr (by simp [h])
      · rcases ih h with h2 | h2
        · exact Or.inl h2
        · exact Or.inr (by simp [h2])

theorem mem_of_mem_insertionSort {α : Type} {le : α → α → Bool} {y : α} {l : List α}
    (h : y ∈ insertionSort le l) : y ∈ l := by
  induction l with
  | nil => simp [insertionSort] at h
  | cons x xs ih =>
    unfold insertionSort at h
    rcases mem_of_mem_orderedInsert h with h2 | h2
    · simp [h2]
    · simp [ih h2]

/-! ## C1: the subscription-gated access check -/

/-- C1 counterexample: with an older still-active subscription and a most
recent inactive expired one, the code grants access while the claimed
most-recent-subscription contract denies it, so the claimed iff fails at
this database state. -/
theorem access_check_most_recent_refuted :
    ¬ ((get_current_subscribed_user 10 u1 [subActiveOld, subInactiveNew] = Except.ok u1) ↔
       specAccessAllowed 10 u1 [subActiveOld, subInactiveNew] = true) := by
  intro hiff
  have hcode : get_current_subscribed_user 10 u1 [subActiveOld, subInactiveNew] =
      Except.ok u1 := rfl
  have hspec : specAccessAllowed 10 u1 [subActiveOld, subInactiveNew] = false := rfl
  have := hiff.mp hcode
  rw [hspec] at this
  exact absurd this (by decide)

/-- C1 (amended): `get_current_subscribed_user` grants access iff the user is
an admin or some (not necessarily the most recent) subscription of the user
has status active or cancelled and `ends_at` strictly after now; in every
other case it fails with the 403 forbidden error. -/
theorem access_check_grants_iff_any_matching (now : Nat) (u : User) (subs : List SubRecord) :
    ((get_current_subscribed_user now u subs = Except.ok u) ↔
      (u.role = "admin" ∨ ∃ s ∈ subs, accessMatch now u.id s = true)) ∧
    ((get_current_subscribed_user now u subs = Except.error AuthError.forbidden) ↔
      ¬ (u.role = "admin" ∨ ∃ s ∈ subs, accessMatch now u.id s = true)) := by
  have key : (get_current_subscribed_user now u subs = Except.ok u) ↔
      (u.role = "admin" ∨ ∃ s ∈ subs, accessMatch now u.id s = true) := by
    unfold get_current_subscribed_user
    by_cases hr : u.role = "admin"
    · simp [hr]
    · rw [beq_eq_false_iff_ne.mpr hr]
      simp only [Bool.false_eq_true, if_false]
      cases hf : subs.find? (accessMatch now u.id) with
      | some s =>
        constructor
        · intro _
          exact Or.inr ⟨s, List.mem_of_find?_eq_some hf, List.find?_some hf⟩
        · intro _
          rfl
      | none =>
        constructor
        · intro hcontra
          cases hcontra
        · intro hcases
          rcases hcases with h | ⟨s, hs, hm⟩
          · exact absurd h hr
          · exact absurd hm (List.find?_eq_none.mp hf s hs)
  have dichotomy : (get_current_subscribed_user now u subs = Except.ok u) ∨
      (get_current_subscribed_user now u subs = Except.error AuthError.forbidden) := by
    unfold get_current_subscribed_user
    by_cases hr : (u.role == "admin") = true
    · simp [hr]
    · simp only [Bool.not_eq_true] at hr
      rw [hr]
      simp only [Bool.false_eq_true, if_false]
      cases subs.find? (accessMatch now u.id) with
      | some s => exact Or.inl rfl
      | none => exact Or.inr rfl
  refine ⟨key, ?_, ?_⟩
  · intro herr
    intro hcond
    have hok := key.mpr hcond
    rw [herr] at hok
    cases hok
  · intro hncond
    rcases dichotomy with h | h
    · exact absurd (key.mp h) hncond
    · exact h

/-! ## C8: the webhook endpoint on events missing cancel timestamps -/

/-- C8: a validly signed `customer.subscription.updated` (resp. `deleted`)
event whose payload carries no `cancel_at` (resp. `canceled_at`) timestamp
makes the dispatched handler raise out of the endpoint
(`datetime.fromtimestamp(None)`), so no success response is produced,
contrary to the documented always-succeed contract. -/
theorem webhook_missing_timestamp_raises :
    stripe_webhook 1000 {} true "customer.subscription.updated"
        { id := some "sub_1" } [] [] 0 =
      Except.error "fromtimestamp raised on a missing timestamp" ∧
    stripe_webhook 1000 {} true "customer.subscription.deleted"
        { id := some "sub_1" } [] [] 0 =
      Except.error "fromtimestamp raised on a missing timestamp" := by
  exact ⟨rfl, rfl⟩

/-! ## The listing pipeline: supporting lemmas -/

theorem results_mem_passes (f : Filters) (year : Nat) (colls : List (List Listing)) (l : Listing)
    (h : l ∈ (get_all_listings_filtered f year colls).results) :
    matchesQuery f l = true ∧ areaOk f l = true ∧ yearOk f year l = true := by
  cases colls with
  | nil => simp [get_all_listings_filtered] at h
  | cons c cs =>
    simp only [get_all_listings_filtered] at h
    have h1 : l ∈ sortedUnion f year (c :: cs) :=
      List.mem_of_mem_drop (List.mem_of_mem_take h)
    have h2 : l ∈ filteredUnion f year (c :: cs) := mem_of_mem_insertionSort h1
    rw [filteredUnion, List.mem_flatten] at h2
    rcases h2 with ⟨piece, hpiece, hl⟩
    rw [List.mem_map] at hpiece
    rcases hpiece with ⟨coll, _, rfl⟩
    rw [collPipeline] at hl
    have hy := List.mem_filter.mp hl
    have ha := List.mem_filter.mp hy.1
    have hm := List.mem_filter.mp ha.1
    exact ⟨hm.2, ha.2, hy.2⟩

theorem priceNumeric_of_matchesQuery {f : Filters} {l : Listing}
    (h : matchesQuery f l = true) : priceNumeric l = true := by
  unfold matchesQuery at h
  rw [Bool.and_eq_true, Bool.and_eq_true] at h
  have hp := h.2
  unfold priceNumeric
  rcases hsp : l.salePrice with _ | pv
  · rw [hsp] at hp
    simp at hp
  · cases pv with
    | pnum n => simp
    | pstr s =>
      rw [hsp] at hp
      simp at hp
    | pnull =>
      rw [hsp] at hp
      simp at hp

theorem yearSome_of_yearOk {f : Filters} {year : Nat} {l : Listing}
    (hb : f.construction_year_min.isSome ∨ f.construction_year_max.isSome)
    (h : yearOk f year l = true) :
    (constructionYearOf year l.constructionDate).isSome = true := by
  unfold yearOk at h
  rw [Bool.and_eq_true] at h
  rcases hy : constructionYearOf year l.constructionDate with _ | v
  · rcases hb with hb | hb
    · rcases hmin : f.construction_year_min with _ | m
      · rw [hmin] at hb
        simp at hb
      · have h1 := h.1
        rw [hmin] at h1
        unfold yearMinOk at h1
        rw [hy] at h1
        simp at h1
    · rcases hmax : f.construction_year_max with _ | m
      · rw [hmax] at hb
        simp at hb
      · have h2 := h.2
        rw [hmax] at h2
        unfold yearMaxOk at h2
        rw [hy] at h2
        simp at h2
  · simp

theorem ceil_div_formula (c l : Nat) (hl : 0 < l) :
    (c + l - 1) / l = ⌈(c : ℚ) / (l : ℚ)⌉₊ := by
  have hlq : (0 : ℚ) < (l : ℚ) := by exact_mod_cast hl
  apply Nat.le_antisymm
  · have hle : (c : ℚ) / l ≤ (⌈(c : ℚ) / l⌉₊ : ℚ) := Nat.le_ceil _
    rw [div_le_iff₀ hlq] at hle
    have hcnat : c ≤ l * ⌈(c : ℚ) / l⌉₊ := by
      rw [Nat.mul_comm]
      exact_mod_cast hle
    calc (c + l - 1) / l ≤ (l * ⌈(c : ℚ) / l⌉₊ + (l - 1)) / l :=
          Nat.div_le_div_right (by omega)
      _ = ⌈(c : ℚ) / l⌉₊ + (l - 1) / l := Nat.mul_add_div hl _ _
      _ = ⌈(c : ℚ) / l⌉₊ := by
          rw [Nat.div_eq_of_lt (by omega)]
          omega
  · apply Nat.ceil_le.mpr
    have key : c ≤ l * ((c + l - 1) / l) := by
      have h1 := Nat.div_add_mod (c + l - 1) l
      have h2 : (c + l - 1) % l < l := Nat.mod_lt _ hl
      omega
    rw [div_le_iff₀ hlq]
    have : (c : ℚ) ≤ ((l * ((c + l - 1) / l) : ℕ) : ℚ) := by exact_mod_cast key
    calc (c : ℚ) ≤ ((l * ((c + l - 1) / l) : ℕ) : ℚ) := this
      _ = (((c + l - 1) / l : ℕ) : ℚ) * l := by push_cast; ring

/-! ## C9: the numeric-price restriction is unconditional -/

/-- C9: with any filter parameters at all, every listing returned by the
search has a `Sale Price` that exists and is numeric, because the
numeric-price restriction is part of the base query rather than of the
optional price-range handling. -/
theorem listings_results_all_numeric_price (f : Filters) (year : Nat)
    (colls : List (List Listing)) :
    ((get_all_listings_filtered f year colls).results.all priceNumeric) = true := by
  rw [List.all_eq_true]
  intro l hl
  exact priceNumeric_of_matchesQuery (results_mem_passes f year colls l hl).1

/-! ## C3: price-filtered searches only return numerically priced listings -/

/-- C3: whenever a price range is requested (even one-sided), no listing with
an absent or non-numeric price appears among the results. -/
theorem price_range_results_numeric (f : Filters) (year : Nat)
    (colls : List (List Listing))
    (_hr : f.sale_price_min.isSome = true ∨ f.sale_price_max.isSome = true) :
    ((get_all_listings_filtered f year colls).results.all priceNumeric) = true := by
  rw [List.all_eq_true]
  intro l hl
  exact priceNumeric_of_matchesQuery (results_mem_passes f year colls l hl).1

/-- C3 witness: a concrete one-sided price range over a collection holding a
numerically priced and a text-priced listing. -/
theorem price_range_results_numeric_witness :
    ((get_all_listings_filtered wFilters 2025 wListings).results.all priceNumeric) = true :=
  price_range_results_numeric wFilters 2025 wListings (Or.inl (by decide))

/-! ## C4: count, page arithmetic and the returned slice -/

/-- C4: for page at least 1 and limit between 1 and 100, the response carries
the length of the filtered (unpaginated) union as `total_count`, the exact
ceiling of `total_count / limit` as `total_pages`, and the slice of the
sorted union at offset `(page-1)*limit` of at most `limit` elements as
`results`. -/
theorem listings_count_pages_slice (f : Filters) (year : Nat)
    (colls : List (List Listing))
    (_hp : 1 ≤ f.page) (hl1 : 1 ≤ f.limit) (_hl2 : f.limit ≤ 100) :
    (get_all_listings_filtered f year colls).total_count =
      (filteredUnion f year colls).length ∧
    (get_all_listings_filtered f year colls).total_pages =
      ⌈((get_all_listings_filtered f year colls).total_count : ℚ) / (f.limit : ℚ)⌉₊ ∧
    (get_all_listings_filtered f year colls).results =
      ((sortedUnion f year colls).drop ((f.page - 1) * f.limit)).take f.limit ∧
    (get_all_listings_filtered f year colls).results.length ≤ f.limit := by
  cases colls with
  | nil =>
    refine ⟨rfl, ?_, ?_, by simp [get_all_listings_filtered]⟩
    · show (0 : Nat) = ⌈((0 : Nat) : ℚ) / (f.limit : ℚ)⌉₊
      simp
    · show ([] : List Listing) = _
      simp [sortedUnion, filteredUnion, insertionSort]
  | cons c cs =>
    refine ⟨length_insertionSort _ _, ?_, rfl, List.length_take_le _ _⟩
    exact ceil_div_formula _ _ hl1

/-- C4 witness: the concrete fixture search (page 1, limit 20). -/
theorem listings_count_pages_slice_witness :
    (get_all_listings_filtered wFilters 2025 wListings).total_count =
      (filteredUnion wFilters 2025 wListings).length ∧
    (get_all_listings_filtered wFilters 2025 wListings).total_pages =
      ⌈((get_all_listings_filtered wFilters 2025 wListings).total_count : ℚ) / (wFilters.limit : ℚ)⌉₊ ∧
    (get_all_listings_filtered wFilters 2025 wListings).results =
      ((sortedUnion wFilters 2025 wListings).drop ((wFilters.page - 1) * wFilters.limit)).take wFilters.limit ∧
    (get_all_listings_filtered wFilters 2025 wListings).results.length ≤ wFilters.limit :=
  listings_count_pages_slice wFilters 2025 wListings (by decide) (by decide) (by decide)

/-! ## C5: construction-year extraction and filtering -/

/-- C5: a four-digit group in the construction-date text is used directly as
the year; otherwise an `N years` phrase yields `currentYear - N`; text
matching neither (or absent text) yields no year, and whenever a
construction-year bound is active every returned listing has a successfully
extracted year, so unparseable listings are excluded outright. -/
theorem construction_year_rule (year : Nat) :
    (∀ s n, fourDigitFind s = some n →
      constructionYearOf year (some s) = some (n : Int)) ∧
    (∀ s k, fourDigitFind s = none → yearsFind s = some k →
      constructionYearOf year (some s) = some ((year : Int) - (k : Int))) ∧
    (∀ s, fourDigitFind s = none → yearsFind s = none →
      constructionYearOf year (some s) = none) ∧
    constructionYearOf year none = none ∧
    (∀ f colls l, f.construction_year_min.isSome = true ∨ f.construction_year_max.isSome = true →
      l ∈ (get_all_listings_filtered f year colls).results →
      (constructionYearOf year l.constructionDate).isSome = true) := by
  refine ⟨?_, ?_, ?_, rfl, ?_⟩
  · intro s n h
    unfold constructionYearOf
    by_cases hs : (s == "") = true
    · have hseq : s = "" := beq_iff_eq.mp hs
      subst hseq
      exact Option.noConfusion h
    · simp only [Option.getD_some, hs, Bool.false_eq_true, if_false, h]
  · intro s k h1 h2
    unfold constructionYearOf
    by_cases hs : (s == "") = true
    · have hseq : s = "" := beq_iff_eq.mp hs
      subst hseq
      exact Option.noConfusion h2
    · simp only [Option.getD_some, hs, Bool.false_eq_true, if_false, h1, h2]
  · intro s h1 h2
    unfold constructionYearOf
    by_cases hs : (s == "") = true
    · simp only [Option.getD_some, hs, if_true]
    · simp only [Option.getD_some, hs, Bool.false_eq_true, if_false, h1, h2]
  · intro f colls l hb hl
    exact yearSome_of_yearOk hb (results_mem_passes f year colls l hl).2.2

/-- C5 witness: `2015` parses to year 2015, `10 years` at current year 2025
parses to 2015, `unknown` parses to nothing, and the fixture search with an
active year bound only returns listings with an extracted year. -/
theorem construction_year_rule_witness :
    constructionYearOf 2025 (some "2015") = some 2015 ∧
    constructionYearOf 2025 (some "10 years") = some ((2025 : Int) - (10 : Int)) ∧
    constructionYearOf 2025 (some "unknown") = none ∧
    (constructionYearOf 2025 (wListingGood.constructionDate)).isSome = true :=
  ⟨(construction_year_rule 2025).1 "2015" 2015 (by decide),
   (construction_year_rule 2025).2.1 "10 years" 10 (by decide) (by decide),
   (construction_year_rule 2025).2.2.1 "unknown" (by decide) (by decide),
   (construction_year_rule 2025).2.2.2.2 wFilters wListings wListingGood
     (Or.inl (by decide)) (by decide)⟩

/-! ## C2: renew while the most recent subscription is unexpired -/

/-- C2: when the user's most recent subscription is unexpired, renew with
status `cancelled` reactivates that record in place (back to `active`, the
provider cancel-at-period-end flag cleared, no record inserted, no payment
taken), with status `active` it is rejected with the already-active client
error, and with any other status it inserts a fresh subscription record
through the paid renewal flow. -/
theorem renew_unexpired_behavior (now : Nat) (env : StripeEnv) (user : User)
    (sd : SubscriptionCreate) (st : PayState) (ex : SubRecord)
    (hex : mostRecentMatching (fun s => s.user_id == some user.id) st.subs = some ex)
    (hun : now < ex.ends_at) :
    (ex.status = "cancelled" → env.modifyOk = true →
      (∃ resp, (renew_subscription now env user sd st).1 = Except.ok resp) ∧
      (renew_subscription now env user sd st).2.subs =
        update_one (fun r => r.oid == ex.oid)
          (fun r => { r with status := "active", updated_at := now }) st.subs ∧
      (renew_subscription now env user sd st).2.subs.length = st.subs.length ∧
      (renew_subscription now env user sd st).2.stripeSubsCreated = st.stripeSubsCreated ∧
      (∀ sid, ex.stripe_subscription_id = some sid →
        (renew_subscription now env user sd st).2.providerFlags.lookup sid = some false)) ∧
    (ex.status = "active" →
      renew_subscription now env user sd st = (Except.error PayError.alreadyActive, st)) ∧
    (ex.status ≠ "cancelled" → ex.status ≠ "active" → sd.payment_provider = "stripe" →
      env.createOk = true →
      (∃ resp, (renew_subscription now env user sd st).1 = Except.ok resp) ∧
      (∃ doc, (renew_subscription now env user sd st).2.subs = st.subs ++ [doc] ∧
        doc.status = "active" ∧ doc.user_id = some user.id ∧
        doc.ends_at = now + thirtyDays) ∧
      (renew_subscription now env user sd st).2.stripeSubsCreated =
        st.stripeSubsCreated + 1) := by
  refine ⟨?_, ?_, ?_⟩
  · intro hc hm
    have h1 : (ex.status == "cancelled") = true := beq_iff_eq.mpr hc
    rcases hsid : ex.stripe_subscription_id with _ | sid
    · have hre : renew_subscription now env user sd st =
          (Except.ok ⟨true, some ex.oid,
            "Subscription reactivated successfully! Your access will continue beyond the current period."⟩,
           { subs := update_one (fun r => r.oid == ex.oid)
               (fun r => { r with status := "active", updated_at := now }) st.subs,
             nextOid := st.nextOid, stripeSubsCreated := st.stripeSubsCreated,
             providerFlags := st.providerFlags }) := by
        simp only [renew_subscription, hex, if_pos hun, h1, if_true]
        unfold reactivate_cancelled_subscription
        rw [hsid]
      rw [hre]
      refine ⟨⟨_, rfl⟩, rfl, length_update_one _ _ _, rfl, ?_⟩
      intro sid2 hsid2
      exact Option.noConfusion hsid2
    · have hre : renew_subscription now env user sd st =
          (Except.ok ⟨true, some ex.oid,
            "Subscription reactivated successfully! Your access will continue beyond the current period."⟩,
           { subs := update_one (fun r => r.oid == ex.oid)
               (fun r => { r with status := "active", updated_at := now }) st.subs,
             nextOid := st.nextOid, stripeSubsCreated := st.stripeSubsCreated,
             providerFlags := (sid, false) :: st.providerFlags }) := by
        simp only [renew_subscription, hex, if_pos hun, h1, if_true]
        unfold reactivate_cancelled_subscription
        rw [hsid]
        simp only [hm, if_true]
      rw [hre]
      refine ⟨⟨_, rfl⟩, rfl, length_update_one _ _ _, rfl, ?_⟩
      intro sid2 hsid2
      injection hsid2 with hsid3
      subst hsid3
      simp [List.lookup]
  · intro ha
    have h1 : (ex.status == "cancelled") = false := by
      rw [ha]
      decide
    have h2 : (ex.status == "active") = true := beq_iff_eq.mpr ha
    simp only [renew_subscription, hex, if_pos hun, h1, h2, Bool.false_eq_true, if_false,
      if_true]
  · intro hnc hna hsd hco
    have h1 : (ex.status == "cancelled") = false := beq_eq_false_iff_ne.mpr hnc
    have h2 : (ex.status == "active") = false := beq_eq_false_iff_ne.mpr hna
    have h3 : (sd.payment_provider == "stripe") = true := beq_iff_eq.mpr hsd
    have hre : renew_subscription now env user sd st =
        (Except.ok ⟨true, some st.nextOid, "Subscription renewed successfully!"⟩,
         { subs := st.subs ++ [renewDoc now env user st], nextOid := st.nextOid + 1,
           stripeSubsCreated := st.stripeSubsCreated + 1,
           providerFlags := st.providerFlags }) := by
      simp only [renew_subscription, hex, if_pos hun, h1, h2, h3, Bool.false_eq_true,
        if_false, if_true]
      unfold process_stripe_renewal
      simp only [hco, if_true]
    rw [hre]
    exact ⟨⟨_, rfl⟩, ⟨renewDoc now env user st, rfl, rfl, rfl, rfl⟩, rfl⟩

/-- C2 witness: renewing at time 100 with the cancelled fixture record
reactivates it in place without inserting or paying. -/
theorem renew_unexpired_behavior_witness :
    (∃ resp, (renew_subscription 100 {} u1 {} w2State).1 = Except.ok resp) ∧
    (renew_subscription 100 {} u1 {} w2State).2.subs =
      update_one (fun r => r.oid == w2Sub.oid)
        (fun r => { r with status := "active", updated_at := (100 : Nat) }) w2State.subs ∧
    (renew_subscription 100 {} u1 {} w2State).2.subs.length = w2State.subs.length ∧
    (renew_subscription 100 {} u1 {} w2State).2.stripeSubsCreated =
      w2State.stripeSubsCreated :=
  have h := (renew_unexpired_behavior 100 {} u1 {} w2State w2Sub (by decide)
    (by decide)).1 rfl rfl
  ⟨h.1, h.2.1, h.2.2.1, h.2.2.2.1⟩

/-! ## C7: cancel marks the active subscription cancelled, and nothing else -/

theorem cancelProviderStep_subs (env : StripeEnv) (doc : SubRecord) (st : PayState) :
    (cancelProviderStep env doc st).1.subs = st.subs := by
  unfold cancelProviderStep
  repeat' split
  all_goals rfl

/-- C7: with some active subscription of the user, cancel answers success and
rewrites exactly that record through a function that sets status `cancelled`
and a fresh `updated_at` while provably preserving `ends_at` and every other
field, for every provider behaviour (including provider errors); with no
active subscription it answers not-found and leaves the state untouched. -/
theorem cancel_sets_cancelled_frame (now : Nat) (env : StripeEnv) (user : User)
    (st : PayState) :
    (∀ doc, st.subs.find? (fun s => s.user_id == some user.id && s.status == "active") =
        some doc →
      (∃ m, (cancel_subscription now env user st).1 = Except.ok m) ∧
      (cancel_subscription now env user st).2.subs =
        update_one (fun r => r.oid == doc.oid)
          (fun r => { r with status := "cancelled", updated_at := now }) st.subs) ∧
    (∀ r : SubRecord,
      let r2 : SubRecord := { r with status := "cancelled", updated_at := now }
      r2.status = "cancelled" ∧ r2.updated_at = now ∧ r2.oid = r.oid ∧
      r2.ends_at = r.ends_at ∧ r2.user_id = r.user_id ∧ r2.plan = r.plan ∧
      r2.payment_provider = r.payment_provider ∧
      r2.stripe_subscription_id = r.stripe_subscription_id ∧
      r2.starts_at = r.starts_at ∧ r2.created_at = r.created_at) ∧
    (st.subs.find? (fun s => s.user_id == some user.id && s.status == "active") = none →
      cancel_subscription now env user st = (Except.error PayError.notFound, st)) := by
  refine ⟨?_, ?_, ?_⟩
  · intro doc hfind
    have hsubs : (cancel_subscription now env user st).2.subs =
        update_one (fun r => r.oid == doc.oid)
          (fun r => { r with status := "cancelled", updated_at := now }) st.subs := by
      simp only [cancel_subscription, hfind]
      rw [cancelProviderStep_subs]
    exact ⟨⟨(cancelProviderStep env doc st).2, by simp only [cancel_subscription, hfind]⟩,
      hsubs⟩
  · intro r
    exact ⟨rfl, rfl, rfl, rfl, rfl, rfl, rfl, rfl, rfl, rfl⟩
  · intro hnone
    simp only [cancel_subscription, hnone]

/-- C7 witness: cancelling the fixture active subscription at time 300. -/
theorem cancel_sets_cancelled_frame_witness :
    (∃ m, (cancel_subscription 300 {} u1 w7State).1 = Except.ok m) ∧
    (cancel_subscription 300 {} u1 w7State).2.subs =
      update_one (fun r => r.oid == w7Sub.oid)
        (fun r => { r with status := "cancelled", updated_at := (300 : Nat) }) w7State.subs :=
  have h := (cancel_sets_cancelled_frame 300 {} u1 w7State).1 w7Sub (by decide)
  ⟨h.1, h.2⟩

/-! ## String plumbing for the credential store -/

theorem str_data_inj {a b : String} (h : a.data = b.data) : a = b := by
  cases a
  cases b
  exact congrArg String.mk h

theorem str_append_left_cancel {a b c : String} (h : a ++ b = a ++ c) : b = c :=
  str_data_inj (List.append_cancel_left (congrArg String.data h))

theorem str_append_right_cancel {a b c : String} (h : a ++ c = b ++ c) : a = b :=
  str_data_inj (List.append_cancel_right (congrArg String.data h))

theorem prefixAux_self_append (l rest : List Char) : prefixAux l (l ++ rest) = true := by
  induction l with
  | nil => rfl
  | cons c cl ih => simp [prefixAux, ih]

theorem pyStartsWith_of_data {pre s : String} {t : List Char}
    (h : s.data = pre.data ++ t) : pyStartsWith pre s = true := by
  unfold pyStartsWith
  rw [h]
  exact prefixAux_self_append _ _

theorem splitAux_append_sep (sep : Char) (l rest acc : List Char)
    (h : l.all (fun c => !(c == sep)) = true) :
    splitAux sep (l ++ sep :: rest) acc = (acc.reverse ++ l) :: splitAux sep rest [] := by
  induction l generalizing acc with
  | nil => simp [splitAux]
  | cons c cl ih =>
    rw [List.all_cons, Bool.and_eq_true] at h
    have hc : (c == sep) = false := by
      rcases h1 : (c == sep) with _ | _
      · rfl
      · rw [h1] at h
        simp at h
    have step : splitAux sep ((c :: cl) ++ sep :: rest) acc =
        splitAux sep (cl ++ sep :: rest) (c :: acc) := by
      show splitAux sep (c :: (cl ++ sep :: rest)) acc = _
      simp only [splitAux, hc, Bool.false_eq_true, if_false]
    rw [step, ih _ h.2]
    simp

theorem splitAux_no_sep (sep : Char) (l acc : List Char)
    (h : l.all (fun c => !(c == sep)) = true) :
    splitAux sep l acc = [acc.reverse ++ l] := by
  induction l generalizing acc with
  | nil => simp [splitAux]
  | cons c cl ih =>
    rw [List.all_cons, Bool.and_eq_true] at h
    have hc : (c == sep) = false := by
      rcases h1 : (c == sep) with _ | _
      · rfl
      · rw [h1] at h
        simp at h
    have step : splitAux sep (c :: cl) acc = splitAux sep cl (c :: acc) := by
      simp only [splitAux, hc, Bool.false_eq_true, if_false]
    rw [step, ih _ h.2]
    simp

theorem fallback_data (salt dig : String) :
    ("sha256:" ++ salt ++ ":" ++ dig).data =
      "sha256".data ++ ':' :: (salt.data ++ ':' :: dig.data) := by
  show (("sha256:".data ++ salt.data) ++ [':']) ++ dig.data = _
  simp

theorem pySplit_fallback (salt dig : String)
    (hsalt : colonFree salt = true) (hdig : colonFree dig = true) :
    pySplit ':' ("sha256:" ++ salt ++ ":" ++ dig) = ["sha256", salt, dig] := by
  unfold pySplit
  rw [fallback_data]
  rw [splitAux_append_sep ':' ("sha256".data) _ [] (by decide)]
  rw [splitAux_append_sep ':' salt.data _ [] hsalt]
  rw [splitAux_no_sep ':' dig.data [] hdig]
  simp

theorem pyStartsWith_fallback (salt dig : String) :
    pyStartsWith "sha256:" ("sha256:" ++ salt ++ ":" ++ dig) = true := by
  apply pyStartsWith_of_data (t := salt.data ++ ':' :: dig.data)
  rw [fallback_data]
  rfl

/-! ## C6: round trip and distinctness of password hashing -/

/-- C6 counterexample: under the over-length pre-digest scheme a long
password and its hex digest verify interchangeably: here the 64-character
digest of an 80-byte password (under an ideal bcrypt model and a stand-in
digest function, as the real primitives are external) verifies successfully
against the stored hash of that 80-byte password, although the two passwords
differ — so `verify(p, hash(q))` is not false for all `p ≠ q`. -/
theorem password_distinctness_counterexample :
    aliasPwd ≠ longPwd ∧
    verify_password toyPrims aliasPwd (get_password_hash toyPrims "ss" longPwd) = true := by
  constructor
  · decide
  · rfl

theorem verify_fallback_self (P : HashPrimitives) (salt p : String)
    (hsalt : colonFree salt = true) (hdp : colonFree (P.sha256hex (p ++ salt)) = true) :
    verify_password P p ("sha256:" ++ salt ++ ":" ++ P.sha256hex (p ++ salt)) = true := by
  unfold verify_password
  rw [pyStartsWith_fallback]
  simp only [if_true]
  rw [pySplit_fallback salt _ hsalt hdp]
  simp

theorem verify_fallback_other (P : HashPrimitives) (salt p q : String)
    (hsi : Function.Injective P.sha256hex) (hne : p ≠ q)
    (hsalt : colonFree salt = true) (hdq : colonFree (P.sha256hex (q ++ salt)) = true) :
    verify_password P p ("sha256:" ++ salt ++ ":" ++ P.sha256hex (q ++ salt)) = false := by
  unfold verify_password
  rw [pyStartsWith_fallback]
  simp only [if_true]
  rw [pySplit_fallback salt _ hsalt hdq]
  show (P.sha256hex (p ++ salt) == P.sha256hex (q ++ salt)) = false
  apply beq_eq_false_iff_ne.mpr
  intro heq
  exact hne (str_append_right_cancel (hsi heq))

/-- C6 (amended): with ideal external primitives (a bcrypt whose
verification accepts exactly the hashed input, an injective hex digest, and
colon-free digests and salt), `verify(p, hash(p))` is true for every
password, below, at or above the 72-byte ceiling and on both the bcrypt and
the salted-digest fallback path; and `verify(p, hash(q))` is false for all
`p ≠ q` except in the cross-ceiling digest-aliasing case, where one password
is over 72 bytes and the other is its hex digest. -/
theorem password_hash_verify_amended (P : HashPrimitives) (salt p q : String)
    (hb1 : ∀ x h, P.bcryptHash x = some h → P.bcryptVerify x h = some true)
    (hb2 : ∀ x y h, P.bcryptHash y = some h → P.bcryptVerify x h = some true → x = y)
    (hbf : ∀ x h, P.bcryptHash x = some h → pyStartsWith "sha256:" h = false)
    (hsi : Function.Injective P.sha256hex)
    (hsalt : colonFree salt = true)
    (hdp : colonFree (P.sha256hex (p ++ salt)) = true)
    (hdq : colonFree (P.sha256hex (q ++ salt)) = true) :
    verify_password P p (get_password_hash P salt p) = true ∧
    (p ≠ q → ¬ crossDigestAlias P p q →
      verify_password P p (get_password_hash P salt q) = false) := by
  constructor
  · unfold get_password_hash
    by_cases hlp : utf8Len p > 72
    · rw [if_pos hlp]
      cases hbh : P.bcryptHash (P.sha256hex p) with
      | some h =>
        unfold verify_password
        rw [hbf _ _ hbh]
        simp only [Bool.false_eq_true, if_false]
        rw [if_pos hlp, hb1 _ _ hbh]
      | none => exact verify_fallback_self P salt p hsalt hdp
    · rw [if_neg hlp]
      cases hbh : P.bcryptHash p with
      | some h =>
        unfold verify_password
        rw [hbf _ _ hbh]
        simp only [Bool.false_eq_true, if_false]
        rw [if_neg hlp, hb1 _ _ hbh]
      | none => exact verify_fallback_self P salt p hsalt hdp
  · intro hne hncross
    unfold get_password_hash
    by_cases hlq : utf8Len q > 72
    · rw [if_pos hlq]
      cases hbh : P.bcryptHash (P.sha256hex q) with
      | some h =>
        unfold verify_password
        rw [hbf _ _ hbh]
        simp only [Bool.false_eq_true, if_false]
        by_cases hlp : utf8Len p > 72
        · rw [if_pos hlp]
          cases hv : P.bcryptVerify (P.sha256hex p) h with
          | none => rfl
          | some b =>
            cases b with
            | false => rfl
            | true =>
              exfalso
              exact hne (hsi (hb2 _ _ _ hbh hv))
        · rw [if_neg hlp]
          cases hv : P.bcryptVerify p h with
          | none => rfl
          | some b =>
            cases b with
            | false => rfl
            | true =>
              exfalso
              exact hncross (Or.inl ⟨hlq, hb2 _ _ _ hbh hv⟩)
      | none => exact verify_fallback_other P salt p q hsi hne hsalt hdq
    · rw [if_neg hlq]
      cases hbh : P.bcryptHash q with
      | some h =>
        unfold verify_password
        rw [hbf _ _ hbh]
        simp only [Bool.false_eq_true, if_false]
        by_cases hlp : utf8Len p > 72
        · rw [if_pos hlp]
          cases hv : P.bcryptVerify (P.sha256hex p) h with
          | none => rfl
          | some b =>
            cases b with
            | false => rfl
            | true =>
              exfalso
              exact hncross (Or.inr ⟨Nat.le_of_not_lt hlq, hlp, hb2 _ _ _ hbh hv⟩)
        · rw [if_neg hlp]
          cases hv : P.bcryptVerify p h with
          | none => rfl
          | some b =>
            cases b with
            | false => rfl
            | true =>
              exfalso
              exact hne (hb2 _ _ _ hbh hv)
      | none => exact verify_fallback_other P salt p q hsi hne hsalt hdq

theorem toy_hb1 : ∀ x h, toyBcryptHash x = some h → toyBcryptVerify x h = some true := by
  intro x h hx
  injection hx with hx2
  subst hx2
  simp [toyBcryptVerify]

theorem toy_hb2 : ∀ x y h, toyBcryptHash y = some h → toyBcryptVerify x h = some true →
    x = y := by
  intro x y h h1 h2
  injection h1 with h1b
  subst h1b
  unfold toyBcryptVerify at h2
  injection h2 with h2b
  exact (str_append_left_cancel (beq_iff_eq.mp h2b)).symm

theorem toy_hbf : ∀ x h, toyBcryptHash x = some h → pyStartsWith "sha256:" h = false := by
  intro x h h1
  injection h1 with h1b
  subst h1b
  rfl

theorem injSha_injective : Function.Injective injSha := by
  intro a b h
  exact str_append_left_cancel h

/-- C6 witness: the amended theorem at the injective stand-in primitives and
the concrete passwords `aa` and `bb` with salt `xy`. -/
theorem password_hash_verify_amended_witness :
    verify_password injPrims "aa" (get_password_hash injPrims "xy" "aa") = true ∧
    verify_password injPrims "aa" (get_password_hash injPrims "xy" "bb") = false :=
  have h := password_hash_verify_amended injPrims "xy" "aa" "bb" toy_hb1 toy_hb2 toy_hbf
    injSha_injective (by decide) (by decide) (by decide)
  ⟨h.1, h.2 (by decide) (by unfold crossDigestAlias; decide)⟩

/-! ## C10: verify_password is total and fails closed -/

/-- C10: `verify_password` never propagates an exception: a stored hash in
the `sha256:` format that does not split into exactly three parts yields
false, and so does every raising bcrypt verification (on either length
path); together with the translation itself being a total function, every
input maps to a boolean. -/
theorem verify_password_failures (P : HashPrimitives) (p h : String) :
    (pyStartsWith "sha256:" h = true → (pySplit ':' h).length ≠ 3 →
      verify_password P p h = false) ∧
    (pyStartsWith "sha256:" h = false → P.bcryptVerify p h = none →
      P.bcryptVerify (P.sha256hex p) h = none → verify_password P p h = false) := by
  constructor
  · intro h1 h2
    unfold verify_password
    rw [h1]
    simp only [if_true]
    rcases hsplit : pySplit ':' h with _ | ⟨a, _ | ⟨b, _ | ⟨c, _ | ⟨d, tl⟩⟩⟩⟩
    · rfl
    · rfl
    · rfl
    · exfalso
      apply h2
      rw [hsplit]
      rfl
    · rfl
  · intro h1 h2 h3
    unfold verify_password
    rw [h1]
    simp only [Bool.false_eq_true, if_false]
    by_cases hlen : utf8Len p > 72
    · rw [if_pos hlen, h3]
    · rw [if_neg hlen, h2]

/-- C10 witness: a malformed two-part `sha256:` stored hash and an
always-raising bcrypt both verify to false. -/
theorem verify_password_failures_witness :
    verify_password failPrims "pw" "sha256:missingpart" = false ∧
    verify_password failPrims "pw" "bcrypthash" = false :=
  ⟨(verify_password_failures failPrims "pw" "sha256:missingpart").1 (by decide) (by decide),
   (verify_password_failures failPrims "pw" "bcrypthash").2 (by decide) rfl rfl⟩

end RealEstate
